import Mathlib

/-!
Shallow embedding of the `glyph_pdf` Python client
(`src/packages/python/glyph_pdf/__init__.py`) and proofs about it.

The client wraps one HTTP round trip per operation.  We model:
* JSON values (`Json`) as produced by Python's `json.loads`;
* the result of `urllib.request.urlopen` as an outcome: either a 2xx
  response (carrying the `json.loads` outcome of its body) or a raised
  exception (`urllib.error.HTTPError` for 4xx/5xx responses,
  `urllib.error.URLError` for transport failures);
* `Glyph._request` as a function from that outcome to a result: a parsed
  value, a raised `GlyphError`, or an uncaught Python exception.
-/

/-- JSON values, as returned by Python `json.loads`.  `obj` models a Python
dict; since `json.loads` keeps the last value for duplicate keys, lookups
below take the last matching entry. -/
inductive Json where
  | null
  | bool (b : Bool)
  | num (n : Int)
  | str (s : String)
  | arr (elems : List Json)
  | obj (fields : List (String × Json))

/-- Whether a JSON value is an object (a Python dict). -/
def Json.isObj : Json → Bool
  | .obj _ => true
  | _ => false

/-- Python `dict.get(key)` on a parsed JSON object: the value for `key`, or
`none` when absent (last entry wins for duplicates, as in a Python dict). -/
def dictGet (fields : List (String × Json)) (key : String) : Option Json :=
  match fields with
  | [] => none
  | (k, v) :: rest =>
      match dictGet rest key with
      | some w => some w
      | none => if k == key then some v else none

/-- `GlyphError(message, status, code)` from the source.  Python is untyped:
the `message` and `code` passed in the HTTP-error branch are whatever JSON
values `error_body.get` returns, so they are modelled as `Json`. -/
structure GlyphErrorData where
  message : Json
  status : Nat
  code : Json

/-- Python exceptions relevant to `_request`. -/
inductive PyException where
  /-- `urllib.error.HTTPError`: a received HTTP response whose status code
  indicates failure (4xx/5xx).  Carries the status code (`exc.code`) and the
  `json.loads` outcome of the response body (`none` when parsing fails). -/
  | httpError (status : Nat) (bodyParse : Option Json)
  /-- A `urllib.error.URLError` that is not an `HTTPError`: transport-level
  failure.  Carries `str(exc.reason)`. -/
  | urlErrorOther (reason : String)
  /-- `json.JSONDecodeError` raised by `json.loads`. -/
  | jsonDecodeError
  /-- `AttributeError`, e.g. calling `.get` on a non-dict value. -/
  | attributeError

/-- Python `isinstance(e, urllib.error.HTTPError)`. -/
def isHTTPError : PyException → Bool
  | .httpError _ _ => true
  | _ => false

/-- Python `isinstance(e, urllib.error.URLError)`.  `HTTPError` is a subclass
of `URLError`, so it also satisfies this test. -/
def isURLError : PyException → Bool
  | .httpError _ _ => true
  | .urlErrorOther _ => true
  | _ => false

/-- `exc.code` of an `HTTPError`. -/
def excCode : PyException → Nat
  | .httpError status _ => status
  | _ => 0

/-- The `json.loads` outcome of `exc.read()` of an `HTTPError`. -/
def excBodyParse : PyException → Option Json
  | .httpError _ bodyParse => bodyParse
  | _ => none

/-- `str(exc.reason)` of a `URLError`. -/
def excReason : PyException → String
  | .urlErrorOther reason => reason
  | _ => ""

/-- Outcome of `urllib.request.urlopen` plus, on success, of reading and
JSON-parsing the response body: either a 2xx response whose body parsed to
`some j` (or failed to parse, `none`), or a raised exception. -/
inductive UrlopenOutcome where
  | ok (bodyParse : Option Json)
  | raised (e : PyException)

/-- Result of `Glyph._request`: a returned parsed value, a raised
`GlyphError`, or a Python exception escaping unhandled. -/
inductive RequestResult where
  | ok (v : Json)
  | glyphErr (e : GlyphErrorData)
  | uncaught (e : PyException)

/-- The body of the `except urllib.error.HTTPError` clause:
```
try:
    error_body = json.loads(exc.read().decode("utf-8"))
except Exception:
    error_body = {}
raise GlyphError(
    message=error_body.get("error", f"Request failed with status {exc.code}"),
    status=exc.code,
    code=error_body.get("code", "UNKNOWN_ERROR"),
)
```
When `error_body` is not a dict (the body parsed to a JSON value other than
an object), `error_body.get` raises `AttributeError`, which this clause does
not catch. -/
def handleHTTPError (status : Nat) (bodyParse : Option Json) : RequestResult :=
  let error_body : Json :=
    match bodyParse with
    | some j => j
    | none => Json.obj []
  match error_body with
  | .obj fields =>
      .glyphErr
        ⟨(dictGet fields "error").getD
            (.str ("Request failed with status " ++ toString status)),
          status,
          (dictGet fields "code").getD (.str "UNKNOWN_ERROR")⟩
  | _ => .uncaught .attributeError

/-- The body of the `except urllib.error.URLError` clause:
```
raise GlyphError(
    message=f"Connection error: {exc.reason}",
    status=0,
    code="CONNECTION_ERROR",
)
``` -/
def handleURLError (reason : String) : RequestResult :=
  .glyphErr ⟨.str ("Connection error: " ++ reason), 0, .str "CONNECTION_ERROR"⟩

/-- Response handling of `Glyph._request`: the `try` block returns
`json.loads(resp.read())` on a 2xx response (a `JSONDecodeError` there is
not caught); on a raised exception the `except` clauses are tried in order,
`HTTPError` first, then `URLError`. -/
def glyphRequest (outcome : UrlopenOutcome) : RequestResult :=
  match outcome with
  | .ok bodyParse =>
      match bodyParse with
      | some j => .ok j
      | none => .uncaught .jsonDecodeError
  | .raised e =>
      if isHTTPError e then handleHTTPError (excCode e) (excBodyParse e)
      else if isURLError e then handleURLError (excReason e)
      else .uncaught e

example : glyphRequest (.raised (.httpError 422
    (some (.obj [("error", .str "bad field"), ("code", .str "INVALID_FIELD")]))))
    = .glyphErr ⟨.str "bad field", 422, .str "INVALID_FIELD"⟩ := rfl

example : glyphRequest (.raised (.httpError 500 none))
    = .glyphErr ⟨.str "Request failed with status 500", 500, .str "UNKNOWN_ERROR"⟩ := rfl

example : glyphRequest (.raised (.httpError 422 (some (.arr []))))
    = .uncaught .attributeError := rfl

example : glyphRequest (.raised (.urlErrorOther "[Errno 111] Connection refused"))
    = .glyphErr ⟨.str "Connection error: [Errno 111] Connection refused", 0,
        .str "CONNECTION_ERROR"⟩ := rfl

/-! ## Percent-encoding (`urllib.parse.quote`, `quote_plus`, `urlencode`) -/

/-- Membership of a byte in `urllib.parse`'s `_ALWAYS_SAFE` set: ASCII
letters, digits, and the characters `_.-~` (never percent-encoded). -/
def isAlwaysSafeByte (b : Nat) : Bool :=
  (65 ≤ b && b ≤ 90) || (97 ≤ b && b ≤ 122) || (48 ≤ b && b ≤ 57) ||
  b == 95 || b == 46 || b == 45 || b == 126

/-- Uppercase hexadecimal digit for `n < 16`, as in `quote`'s `%{:02X}`. -/
def hexChar (n : Nat) : Char :=
  (['0', '1', '2', '3', '4', '5', '6', '7', '8', '9',
    'A', 'B', 'C', 'D', 'E', 'F']).getD n '0'

/-- How `urllib.parse.quote` renders one byte of the UTF-8 encoding: the
byte itself when always-safe or in the caller's `safe` set, otherwise
`%XX` with uppercase hex. -/
def quoteByte (safe : List Nat) (b : Nat) : List Char :=
  if isAlwaysSafeByte b || safe.contains b then [Char.ofNat b]
  else ['%', hexChar (b / 16), hexChar (b % 16)]

/-- The UTF-8 bytes of a string, as `Nat`s: the byte list that
`String.toUTF8` packs into a `ByteArray`. -/
def utf8Bytes (s : String) : List Nat :=
  (s.data.flatMap String.utf8EncodeChar).map (fun b => b.toNat)

/-- `urllib.parse.quote(s, safe)`: percent-encode every UTF-8 byte outside
`_ALWAYS_SAFE ∪ safe`.  `safe` is given as a list of ASCII byte values. -/
def pyQuote (s : String) (safe : List Nat) : String :=
  String.mk (((utf8Bytes s).map (quoteByte safe)).flatten)

/-- Python `s.replace(" ", "+")`: for a one-character pattern and
replacement this is a character map. -/
def replaceSpacePlus (s : String) : String :=
  String.mk (s.data.map (fun c => if c == ' ' then '+' else c))

/-- `urllib.parse.quote_plus(s, safe)`: like `quote`, but when the string
contains a space, the space is kept safe during quoting and then replaced
by `+`. -/
def pyQuotePlus (s : String) (safe : List Nat) : String :=
  if s.toList.contains ' ' then
    replaceSpacePlus (pyQuote s (safe ++ [32]))
  else
    pyQuote s safe

/-- `urllib.parse.urlencode({k: v})` for a single-entry dict: each side
encoded with `quote_plus` and the default empty `safe` set. -/
def pyUrlencode1 (k v : String) : String :=
  pyQuotePlus k [] ++ "=" ++ pyQuotePlus v []

example : pyQuote "inv oice/1" [] = "inv%20oice%2F1" := rfl
example : pyQuotePlus "invoices" [] = "invoices" := rfl
example : pyQuotePlus "a b/c" [] = "a+b%2Fc" := rfl
example : pyUrlencode1 "category" "invoices" = "category=invoices" := rfl

/-! ## The `Glyph` client -/

/-- Python `s.rstrip("/")`: remove every trailing `/`. -/
def pyRstripSlash (s : String) : String :=
  String.mk (s.toList.reverse.dropWhile (fun c => c == '/')).reverse

/-- The `Glyph` client state: `self._api_key` and `self._base_url`. -/
structure Glyph where
  api_key : String
  base_url : String

/-- `Glyph.__init__`: stores the API key and the base URL with any trailing
slash stripped. -/
def Glyph.init (api_key : String) (base_url : String) : Glyph :=
  ⟨api_key, pyRstripSlash base_url⟩

/-- URL built by `_request`: `f"{self._base_url}{path}"`. -/
def Glyph.requestUrl (g : Glyph) (path : String) : String :=
  g.base_url ++ path

/-- Headers attached by `_request`. -/
def Glyph.requestHeaders (g : Glyph) : List (String × String) :=
  [("Authorization", "Bearer " ++ g.api_key),
   ("Content-Type", "application/json"),
   ("Accept", "application/json")]

/-- The keyword arguments of `Glyph.create`.  Python uses `None` as the
not-supplied sentinel for every optional field, so each is an `Option`;
`format` has a plain default of `"pdf"`.  The `data` and `options`
mappings and the `ttl` integer are carried as `Json` payloads. -/
structure CreateArgs where
  data : Option (List (String × Json))
  html : Option String
  url : Option String
  template_id : Option String
  intent : Option String
  style : Option String
  format : String
  options : Option (List (String × Json))
  ttl : Option Int

/-- One conditional entry of the `create` body: the Python statement
`if field is not None: body[key] = f(field)` contributes `[(key, f x)]`
when the field was supplied and nothing when it is `None`. -/
def optEntry {A : Type} (key : String) (f : A → Json) (o : Option A) :
    List (String × Json) :=
  match o with
  | some x => [(key, f x)]
  | none => []

/-- The `body` dict assembled by `Glyph.create`, in insertion order:
`{"format": format}` first, then one entry per field that `is not None`. -/
def createBody (a : CreateArgs) : List (String × Json) :=
  [("format", Json.str a.format)]
  ++ optEntry "data" Json.obj a.data
  ++ optEntry "html" Json.str a.html
  ++ optEntry "url" Json.str a.url
  ++ optEntry "templateId" Json.str a.template_id
  ++ optEntry "intent" Json.str a.intent
  ++ optEntry "style" Json.str a.style
  ++ optEntry "options" Json.obj a.options
  ++ optEntry "ttl" Json.num a.ttl

/-- Path (with query string) requested by `Glyph.templates`:
`"/v1/templates"`, plus `"?" + urlencode({"category": category})` when a
category is given. -/
def templatesPath (category : Option String) : String :=
  match category with
  | none => "/v1/templates"
  | some c => "/v1/templates" ++ "?" ++ pyUrlencode1 "category" c

/-- Path requested by `Glyph.template_schema`:
`f"/v1/templates/{quote(template_id, safe=chr(39)chr(39))}/schema"`. -/
def templateSchemaPath (template_id : String) : String :=
  "/v1/templates/" ++ pyQuote template_id [] ++ "/schema"

/-- Result of `Glyph.create` given the `urlopen` outcome: `_request`
returns the parsed body verbatim. -/
def Glyph.createResp (outcome : UrlopenOutcome) : RequestResult :=
  glyphRequest outcome

/-- Result of `Glyph.template_schema` given the `urlopen` outcome. -/
def Glyph.templateSchemaResp (outcome : UrlopenOutcome) : RequestResult :=
  glyphRequest outcome

/-- Result of `Glyph.templates` given the `urlopen` outcome:
`result.get("templates", [])` applied to what `_request` returns.  When
the parsed result is not a dict, `.get` raises `AttributeError`. -/
def Glyph.templatesResp (outcome : UrlopenOutcome) : RequestResult :=
  match glyphRequest outcome with
  | .ok result =>
      match result with
      | .obj fields => .ok ((dictGet fields "templates").getD (.arr []))
      | _ => .uncaught .attributeError
  | r => r

example : Glyph.templatesResp
    (.ok (some (.obj [("templates", .arr [.obj [("id", .str "a")]])])))
    = .ok (.arr [.obj [("id", .str "a")]]) := rfl
example : Glyph.templatesResp (.ok (some (.obj []))) = .ok (.arr []) := rfl
example : (Glyph.init "k" "https://x.test/").requestUrl "/v1/create"
    = "https://x.test/v1/create" := rfl

/-! ## Helper lemmas -/

/-- Characters that `quote` with an empty safe set can emit: always-safe
characters, the percent sign, and uppercase hexadecimal digits. -/
def isQuoteOutputChar (c : Char) : Bool :=
  isAlwaysSafeByte c.toNat || c == '%' ||
  (('0' ≤ c && c ≤ '9') || ('A' ≤ c && c ≤ 'F'))

theorem isQuoteOutputChar_ne (c : Char) (h : isQuoteOutputChar c = true) :
    c ≠ '/' ∧ c ≠ ' ' := by
  constructor <;> rintro rfl <;> exact absurd h (by decide)

theorem hexChar_good (n : Nat) : isQuoteOutputChar (hexChar n) = true := by
  by_cases h : n < 16
  · interval_cases n <;> decide
  · have hd : hexChar n = '0' := by
      unfold hexChar
      apply List.getD_eq_default
      simpa using Nat.le_of_not_lt h
    rw [hd]; decide

theorem safeByte_good (b : Nat) (hb : isAlwaysSafeByte b = true) :
    isQuoteOutputChar (Char.ofNat b) = true := by
  have hlt : b < 127 := by
    simp only [isAlwaysSafeByte, Bool.or_eq_true, Bool.and_eq_true,
      decide_eq_true_eq, beq_iff_eq] at hb
    omega
  interval_cases b <;> revert hb <;> decide

/-- Every character emitted by `quote` with the empty safe set is an
always-safe character, a percent sign, or an uppercase hex digit. -/
theorem quote_output_chars (s : String) (c : Char)
    (h : c ∈ (pyQuote s []).data) : isQuoteOutputChar c = true := by
  have h2 : c ∈ ((utf8Bytes s).map (quoteByte [])).flatten := h
  rw [List.mem_flatten] at h2
  obtain ⟨chunk, hchunk, hc⟩ := h2
  rw [List.mem_map] at hchunk
  obtain ⟨b, _, rfl⟩ := hchunk
  unfold quoteByte at hc
  cases hsafe : isAlwaysSafeByte b with
  | true =>
      simp [hsafe] at hc
      subst hc
      exact safeByte_good b hsafe
  | false =>
      simp [hsafe] at hc
      rcases hc with rfl | rfl | rfl
      · decide
      · exact hexChar_good _
      · exact hexChar_good _

theorem dropWhile_head_ne_slash (l : List Char) :
    (l.dropWhile (fun c => c == '/')).head? ≠ some '/' := by
  induction l with
  | nil => simp
  | cons a t ih =>
      by_cases h : a = '/'
      · subst h; simpa [List.dropWhile_cons] using ih
      · simp [List.dropWhile_cons, h]

/-! ## Claim theorems -/

/-- C2: for every operation, an HTTP failure response whose body parses as
a JSON object raises a `GlyphError` with status = the HTTP status code,
code = the body's `code` field if present else `"UNKNOWN_ERROR"`, and
message = the body's `error` field if present else
`"Request failed with status <code>"`; a 422 response with body
`{"error": "bad field", "code": "INVALID_FIELD"}` yields
status 422 / `INVALID_FIELD` / `bad field`, and a 500 response with an
unparseable body yields status 500 / `UNKNOWN_ERROR` /
`"Request failed with status 500"`. -/
theorem http_error_normalization (status : Nat) (fields : List (String × Json))
    (_hs : 400 ≤ status) :
    glyphRequest (.raised (.httpError status (some (.obj fields))))
      = .glyphErr
          ⟨(dictGet fields "error").getD
              (.str ("Request failed with status " ++ toString status)),
            status,
            (dictGet fields "code").getD (.str "UNKNOWN_ERROR")⟩
    ∧ glyphRequest (.raised (.httpError 422
        (some (.obj [("error", .str "bad field"), ("code", .str "INVALID_FIELD")]))))
        = .glyphErr ⟨.str "bad field", 422, .str "INVALID_FIELD"⟩
    ∧ glyphRequest (.raised (.httpError 500 none))
        = .glyphErr ⟨.str "Request failed with status 500", 500, .str "UNKNOWN_ERROR"⟩ :=
  ⟨rfl, rfl, rfl⟩

theorem http_error_normalization_witness :
    glyphRequest (.raised (.httpError 422
      (some (.obj [("error", .str "bad field"), ("code", .str "INVALID_FIELD")]))))
      = .glyphErr ⟨.str "bad field", 422, .str "INVALID_FIELD"⟩ :=
  (http_error_normalization 422
    [("error", .str "bad field"), ("code", .str "INVALID_FIELD")] (by decide)).1

/-- C3: a transport-level failure (a `URLError` that is not an `HTTPError`)
raises a `GlyphError` with status 0, code `"CONNECTION_ERROR"`, and a
message describing the underlying transport failure reason. -/
theorem connection_error_normalization (reason : String) :
    glyphRequest (.raised (.urlErrorOther reason))
      = .glyphErr ⟨.str ("Connection error: " ++ reason), 0, .str "CONNECTION_ERROR"⟩ :=
  rfl

theorem connection_error_normalization_witness :
    glyphRequest (.raised (.urlErrorOther "[Errno 111] Connection refused"))
      = .glyphErr ⟨.str "Connection error: [Errno 111] Connection refused", 0,
          .str "CONNECTION_ERROR"⟩ :=
  connection_error_normalization "[Errno 111] Connection refused"

/-- C8: on a 2xx response whose body is not valid JSON, every operation
lets the JSON-parse failure escape as an uncaught `JSONDecodeError` and
never raises a `GlyphError`. -/
theorem success_parse_failure_uncaught :
    Glyph.createResp (.ok none) = .uncaught .jsonDecodeError
    ∧ Glyph.templatesResp (.ok none) = .uncaught .jsonDecodeError
    ∧ Glyph.templateSchemaResp (.ok none) = .uncaught .jsonDecodeError
    ∧ ∀ e, glyphRequest (.ok none) ≠ .glyphErr e :=
  ⟨rfl, rfl, rfl, fun _ h => RequestResult.noConfusion h⟩

theorem success_parse_failure_uncaught_witness :
    glyphRequest (.ok none) ≠ .glyphErr ⟨.str "x", 200, .str "y"⟩ :=
  success_parse_failure_uncaught.2.2.2 ⟨.str "x", 200, .str "y"⟩

/-- C4 counterexample: a 422 response whose body is valid JSON but not an
object (the JSON array `[]`) is NOT treated as an empty error body — the
`error_body.get` call raises an `AttributeError` that escapes the handler,
and no fallback `GlyphError` (code `"UNKNOWN_ERROR"`, generated message)
is raised. -/
theorem error_body_nonobject_counterexample :
    glyphRequest (.raised (.httpError 422 (some (.arr []))))
      = .uncaught .attributeError
    ∧ glyphRequest (.raised (.httpError 422 (some (.arr []))))
        ≠ .glyphErr ⟨.str "Request failed with status 422", 422, .str "UNKNOWN_ERROR"⟩ :=
  ⟨rfl, fun h => RequestResult.noConfusion h⟩

/-- C4 amended: an HTTP failure body that fails to parse as JSON is treated
as an empty error body (fallback code `"UNKNOWN_ERROR"` and the generated
message), but a body that parses to a JSON value other than an object makes
the handler itself raise an uncaught `AttributeError`. -/
theorem error_body_fallback (status : Nat) (j : Json) (hj : j.isObj = false) :
    glyphRequest (.raised (.httpError status none))
      = .glyphErr ⟨.str ("Request failed with status " ++ toString status),
          status, .str "UNKNOWN_ERROR"⟩
    ∧ glyphRequest (.raised (.httpError status (some j))) = .uncaught .attributeError := by
  refine ⟨rfl, ?_⟩
  cases j with
  | obj fields => exact absurd hj (by simp [Json.isObj])
  | null => rfl
  | bool b => rfl
  | num n => rfl
  | str s => rfl
  | arr elems => rfl

theorem error_body_fallback_witness :
    (Json.arr []).isObj = false
    ∧ glyphRequest (.raised (.httpError 500 (some (.arr []))))
        = .uncaught .attributeError :=
  ⟨rfl, (error_body_fallback 500 (.arr []) rfl).2⟩

/-- C10 counterexample: a 404 response whose body parses to the JSON string
`"oops"` does not raise an error carrying the HTTP status at all — an
uncaught `AttributeError` (which has no status) escapes instead, so not
every failure-status response yields an error carrying that status. -/
theorem http_precedence_counterexample :
    glyphRequest (.raised (.httpError 404 (some (.str "oops"))))
      = .uncaught .attributeError
    ∧ glyphRequest (.raised (.httpError 404 (some (.str "oops"))))
        ≠ .glyphErr ⟨.str "Request failed with status 404", 404, .str "UNKNOWN_ERROR"⟩ :=
  ⟨rfl, fun h => RequestResult.noConfusion h⟩

/-- C10 amended: for a received HTTP failure response the `HTTPError`
handler takes precedence over the transport handler even though `HTTPError`
is a subtype of `URLError` (the exception satisfies the `URLError` test),
and whenever a `GlyphError` is raised for such a response it carries the
HTTP status — nonzero for failure statuses — so it is never a status-0
`"CONNECTION_ERROR"`. -/
theorem http_error_precedence (status : Nat) (bodyParse : Option Json)
    (e : GlyphErrorData) (hs : 400 ≤ status)
    (h : glyphRequest (.raised (.httpError status bodyParse)) = .glyphErr e) :
    isURLError (.httpError status bodyParse) = true
    ∧ e.status = status
    ∧ e.status ≠ 0
    ∧ ¬(e.status = 0 ∧ e.code = .str "CONNECTION_ERROR") := by
  have hst : e.status = status := by
    rcases bodyParse with _ | j
    · have h2 : RequestResult.glyphErr
          ⟨.str ("Request failed with status " ++ toString status),
            status, .str "UNKNOWN_ERROR"⟩ = .glyphErr e := h
      injection h2 with h3
      rw [← h3]
    · cases j with
      | obj fields =>
          have h2 : RequestResult.glyphErr
              ⟨(dictGet fields "error").getD
                  (.str ("Request failed with status " ++ toString status)),
                status,
                (dictGet fields "code").getD (.str "UNKNOWN_ERROR")⟩
              = .glyphErr e := h
          injection h2 with h3
          rw [← h3]
      | null => exact RequestResult.noConfusion h
      | bool b => exact RequestResult.noConfusion h
      | num n => exact RequestResult.noConfusion h
      | str s => exact RequestResult.noConfusion h
      | arr elems => exact RequestResult.noConfusion h
  exact ⟨rfl, hst, by omega, fun hc => by omega⟩

theorem http_error_precedence_witness :
    400 ≤ 422
    ∧ glyphRequest (.raised (.httpError 422 (some (.obj []))))
        = .glyphErr ⟨.str "Request failed with status 422", 422, .str "UNKNOWN_ERROR"⟩
    ∧ isURLError (.httpError 422 (some (.obj []))) = true
    ∧ (GlyphErrorData.mk (.str "Request failed with status 422") 422
        (.str "UNKNOWN_ERROR")).status = 422 :=
  ⟨by decide, rfl,
    (http_error_precedence 422 (some (.obj [])) _ (by decide) rfl).1,
    (http_error_precedence 422 (some (.obj [])) _ (by decide) rfl).2.1⟩

/-- C5: on a 2xx response whose body is a JSON object, `templates` returns
exactly the value of the body's `templates` field, and an absent field
yields the empty array rather than an error; body
`{"templates": [{"id":"a"}]}` yields `[{"id":"a"}]` and body `{}` yields
`[]`. -/
theorem templates_extraction :
    (∀ fields v, dictGet fields "templates" = some v →
        Glyph.templatesResp (.ok (some (.obj fields))) = .ok v)
    ∧ (∀ fields, dictGet fields "templates" = none →
        Glyph.templatesResp (.ok (some (.obj fields))) = .ok (.arr []))
    ∧ Glyph.templatesResp
        (.ok (some (.obj [("templates", .arr [.obj [("id", .str "a")]])])))
        = .ok (.arr [.obj [("id", .str "a")]])
    ∧ Glyph.templatesResp (.ok (some (.obj []))) = .ok (.arr []) := by
  refine ⟨?_, ?_, rfl, rfl⟩
  · intro fields v hf
    show RequestResult.ok ((dictGet fields "templates").getD (.arr [])) = .ok v
    rw [hf]
    rfl
  · intro fields hf
    show RequestResult.ok ((dictGet fields "templates").getD (.arr [])) = .ok (.arr [])
    rw [hf]
    rfl

theorem templates_extraction_witness :
    dictGet [("templates", Json.arr [])] "templates" = some (.arr [])
    ∧ Glyph.templatesResp (.ok (some (.obj [("templates", .arr [])]))) = .ok (.arr []) :=
  ⟨rfl, templates_extraction.1 [("templates", .arr [])] (.arr []) rfl⟩

/-- C6: `template_schema` percent-encodes the template id with an empty
safe set and requests `/v1/templates/<encoded_id>/schema`; every character
`quote` emits with the empty safe set is an always-safe character, a
percent sign, or an uppercase hex digit — in particular never a literal
`/` or space — and for `"inv oice/1"` the encoded segment is
`"inv%20oice%2F1"`. -/
theorem template_schema_path_encoding :
    templateSchemaPath "inv oice/1" = "/v1/templates/inv%20oice%2F1/schema"
    ∧ pyQuote "inv oice/1" [] = "inv%20oice%2F1"
    ∧ (∀ tid c, c ∈ (pyQuote tid []).data →
        isQuoteOutputChar c = true ∧ c ≠ '/' ∧ c ≠ ' ') :=
  ⟨rfl, rfl, fun tid c h =>
    have hq := quote_output_chars tid c h
    ⟨hq, isQuoteOutputChar_ne c hq⟩⟩

theorem template_schema_path_encoding_witness :
    ('%' ∈ (pyQuote "inv oice/1" []).data)
    ∧ isQuoteOutputChar '%' = true ∧ '%' ≠ '/' ∧ '%' ≠ ' ' :=
  ⟨by decide, template_schema_path_encoding.2.2 "inv oice/1" '%' (by decide)⟩

/-- C7: `templates` with no category requests exactly `/v1/templates` with
no query string; with a category it requests
`/v1/templates?category=<encoded>` where the value is encoded with
`quote_plus` (standard form encoding: space becomes `+`, reserved
characters percent-escaped); category `"invoices"` yields
`/v1/templates?category=invoices`. -/
theorem templates_query_encoding :
    templatesPath none = "/v1/templates"
    ∧ (∀ c, templatesPath (some c) = "/v1/templates?category=" ++ pyQuotePlus c [])
    ∧ templatesPath (some "invoices") = "/v1/templates?category=invoices"
    ∧ templatesPath (some "a b/c") = "/v1/templates?category=a+b%2Fc" :=
  ⟨rfl, fun _ => rfl, rfl, rfl⟩

theorem templates_query_encoding_witness :
    templatesPath (some "x") = "/v1/templates?category=" ++ pyQuotePlus "x" [] :=
  templates_query_encoding.2.1 "x"

/-- C9: construction strips every trailing slash from `base_url` (the
stored value never ends in `/`), each request URL is the stored base
concatenated with the operation path, and with base
`"https://x.test/"` the three operations hit
`https://x.test/v1/create`, `https://x.test/v1/templates`, and
`https://x.test/v1/templates/t/schema` — no doubled slash. -/
theorem base_url_stripping :
    (∀ key base, ((Glyph.init key base).base_url.data.getLast? ≠ some '/'))
    ∧ (∀ key base path, (Glyph.init key base).requestUrl path
        = pyRstripSlash base ++ path)
    ∧ (Glyph.init "k" "https://x.test/").requestUrl "/v1/create"
        = "https://x.test/v1/create"
    ∧ (Glyph.init "k" "https://x.test/").requestUrl (templatesPath none)
        = "https://x.test/v1/templates"
    ∧ (Glyph.init "k" "https://x.test/").requestUrl (templateSchemaPath "t")
        = "https://x.test/v1/templates/t/schema" := by
  refine ⟨?_, fun key base path => rfl, rfl, rfl, rfl⟩
  intro key base
  show (String.mk (base.data.reverse.dropWhile (fun c => c == '/')).reverse).data.getLast?
      ≠ some '/'
  rw [show ∀ l : List Char, (String.mk l).data = l from fun _ => rfl]
  rw [List.getLast?_reverse]
  exact dropWhile_head_ne_slash _

theorem base_url_stripping_witness :
    (Glyph.init "k" "https://x.test///").base_url.data.getLast? ≠ some '/' :=
  base_url_stripping.1 "k" "https://x.test///"

theorem mem_optEntry_fst {A : Type} (key k : String) (f : A → Json)
    (o : Option A) :
    (k ∈ (optEntry key f o).map Prod.fst) ↔ (o.isSome ∧ k = key) := by
  cases o <;> simp [optEntry]

theorem optEntry_fst_sublist {A : Type} (key : String) (f : A → Json)
    (o : Option A) :
    List.Sublist ((optEntry key f o).map Prod.fst) [key] := by
  cases o <;> simp [optEntry]

set_option maxHeartbeats 1000000 in
/-- C1: the body dict serialized by `create` has no duplicate keys and
contains exactly `"format"` (always present, defaulting to `"pdf"`) plus
one key per optional field the caller supplied (`is not None`), and no
other keys; presence depends only on the field being supplied, so an
explicitly supplied empty string or empty mapping is still serialized and
an unsupplied field contributes no key at all. -/
theorem create_body_exact_keys (a : CreateArgs) :
    ((createBody a).map Prod.fst).Nodup
    ∧ ∀ k, k ∈ (createBody a).map Prod.fst ↔
        (k = "format"
        ∨ (a.data.isSome ∧ k = "data")
        ∨ (a.html.isSome ∧ k = "html")
        ∨ (a.url.isSome ∧ k = "url")
        ∨ (a.template_id.isSome ∧ k = "templateId")
        ∨ (a.intent.isSome ∧ k = "intent")
        ∨ (a.style.isSome ∧ k = "style")
        ∨ (a.options.isSome ∧ k = "options")
        ∨ (a.ttl.isSome ∧ k = "ttl")) := by
  refine ⟨?_, ?_⟩
  · have hsub : List.Sublist ((createBody a).map Prod.fst)
        ((((((((["format"] ++ ["data"]) ++ ["html"]) ++ ["url"]) ++ ["templateId"])
          ++ ["intent"]) ++ ["style"]) ++ ["options"]) ++ ["ttl"]) := by
      simp only [createBody, List.map_append, List.map_cons, List.map_nil]
      exact ((((((((List.Sublist.refl ["format"]).append
        (optEntry_fst_sublist "data" Json.obj a.data)).append
        (optEntry_fst_sublist "html" Json.str a.html)).append
        (optEntry_fst_sublist "url" Json.str a.url)).append
        (optEntry_fst_sublist "templateId" Json.str a.template_id)).append
        (optEntry_fst_sublist "intent" Json.str a.intent)).append
        (optEntry_fst_sublist "style" Json.str a.style)).append
        (optEntry_fst_sublist "options" Json.obj a.options)).append
        (optEntry_fst_sublist "ttl" Json.num a.ttl)
    exact List.Nodup.sublist hsub (by decide)
  · intro k
    simp only [createBody, List.map_append, List.mem_append, mem_optEntry_fst,
      List.map_cons, List.map_nil, List.mem_singleton]
    tauto

theorem create_body_exact_keys_witness :
    ((createBody ⟨some [], some "", none, none, none, none, "pdf", none, none⟩).map
        Prod.fst).Nodup
    ∧ ("html" ∈ (createBody
          ⟨some [], some "", none, none, none, none, "pdf", none, none⟩).map Prod.fst
        ↔ ("html" = "format"
        ∨ ((some ([] : List (String × Json))).isSome ∧ "html" = "data")
        ∨ ((some "").isSome ∧ "html" = "html")
        ∨ ((none : Option String).isSome ∧ "html" = "url")
        ∨ ((none : Option String).isSome ∧ "html" = "templateId")
        ∨ ((none : Option String).isSome ∧ "html" = "intent")
        ∨ ((none : Option String).isSome ∧ "html" = "style")
        ∨ ((none : Option (List (String × Json))).isSome ∧ "html" = "options")
        ∨ ((none : Option Int).isSome ∧ "html" = "ttl"))) :=
  ⟨(create_body_exact_keys ⟨some [], some "", none, none, none, none, "pdf", none, none⟩).1,
    (create_body_exact_keys
      ⟨some [], some "", none, none, none, none, "pdf", none, none⟩).2 "html"⟩
